import Mathlib

/-!
Verification of the Constellation secret provisioning and recovery core.

The development embeds two parts of the repository:

1. the recovery orchestrator retry state machine exercised by
   src/cli/internal/cmd/recover_test.go (the command implementation itself is
   not under src, so the loop is modelled from the spec, section 4.5, and
   checked against the behaviours the tests pin down);
2. the join service RPC handlers of
   src/joinservice/internal/server/server.go, embedded over an explicit
   capability record mirroring the Go interfaces, with an event trace
   recording the order of completed steps.

Byte slices are lists of naturals, fallible Go calls are Except values, and a
Go runtime panic (out-of-range slice index) is a distinguished outcome.
-/

/-- Byte sequences standing for Go byte slices. -/
abbrev ByteSeq := List Nat

/- ## Recovery orchestrator (spec section 4.5, src/cli/internal/cmd/recover_test.go) -/

/-- Modelled from the spec: classification of one push attempt, the closed
tagged-variant decision of the recovery retry state machine (spec section 4.5;
the recovery command implementation is not under src, only its tests).
success is a nil error; unavailable is a plain transport-unavailable
condition; handshakeFailure is the load-balancer churn pattern, which also
carries the transport-unavailable code; fatal is any other error. -/
inductive Outcome where
  | success
  | unavailable
  | handshakeFailure
  | fatal
  deriving DecidableEq

/-- Modelled from the spec: the transport-unavailable test applied by the
recovery loop. Both the plain unavailable condition and the load-balancer
handshake pattern carry the unavailable transport code. -/
def serviceIsUnavailable : Outcome → Bool
  | .unavailable => true
  | .handshakeFailure => true
  | _ => false

/-- Modelled from the spec: the load-balancer churn handshake pattern test. -/
def lbNotReady : Outcome → Bool
  | .handshakeFailure => true
  | _ => false

/-- Embedding of stubDoer.Do from src/cli/internal/cmd/recover_test.go: the
head of the scripted outcome list is returned and dropped; once the script is
exhausted every further call reports the transport-unavailable outcome. -/
def nextAttempt : List Outcome → Outcome × List Outcome
  | [] => (.unavailable, [])
  | a :: rest => (a, rest)

/-- Modelled from the spec: one endpoint round of the recovery orchestrator.
The push is attempted repeatedly; the load-balancer churn pattern is always
retried, a transport-unavailable outcome is retried at most once per endpoint
(the once flag), and any other outcome stops the round immediately. Fuel
models the caller-imposed timeout and cancellation; none means the budget ran
out. Returns the final outcome of the round with the remaining script. -/
def endpointRound : Nat → Bool → List Outcome → Option (Outcome × List Outcome)
  | 0, _, _ => none
  | fuel + 1, onceUsed, attempts =>
    match nextAttempt attempts with
    | (.success, rest) => some (.success, rest)
    | (o, rest) =>
      if lbNotReady o then
        endpointRound fuel onceUsed rest
      else if serviceIsUnavailable o && !onceUsed then
        endpointRound fuel true rest
      else
        some (o, rest)

/-- Final result of the recovery loop: done carries the number of successful
recoveries on the no-error path, failedWith carries the count accumulated
before a fatal outcome, cancelled models exhaustion of the fuel budget. -/
inductive LoopResult where
  | done (successes : Nat)
  | failedWith (successes : Nat) (e : Outcome)
  | cancelled
  deriving DecidableEq

/-- Modelled from the spec: the recovery orchestrator loop. Every iteration
runs one endpoint round with a fresh retry-once budget; a successful round
increments the success count and advances to the next endpoint; a round that
ends in a transport-unavailable outcome terminates the whole loop successfully
with the count so far; any other final outcome aborts the loop and returns the
error together with the count so far. -/
def recoverLoop : Nat → Nat → List Outcome → LoopResult
  | 0, _, _ => .cancelled
  | fuel + 1, ctr, attempts =>
    match endpointRound (fuel + 1) false attempts with
    | none => .cancelled
    | some (.success, rest) => recoverLoop fuel (ctr + 1) rest
    | some (o, _) =>
      if serviceIsUnavailable o then .done ctr else .failedWith ctr o

/-- Modelled from the spec: the completion report of the recovery command
(messages asserted by src/cli/internal/cmd/recover_test.go). Zero successes
without error report that no nodes needed recovery; a positive count is
reported together with the pushed-key message; a fatal end reports the error
together with the count accumulated before the failure. -/
def recoverReport : LoopResult → String
  | .done 0 => "No control-plane nodes in need of recovery found."
  | .done n => "Pushed recovery key. Successfully recovered " ++ toString n ++ " node(s)."
  | .failedWith n _ => "Recovery failed after " ++ toString n ++ " successful recoveries."
  | .cancelled => "Recovery cancelled."

/- ## Recovery loop claims -/

/-- C1: a transport-unavailable outcome is retried at most once per endpoint.
The attempt script [Unavailable, Success] ends with one successful recovery
and no error, while [Unavailable, Unavailable, Success] meets a second
consecutive unavailable outcome at the same endpoint and terminates the loop
successfully with zero recoveries, never reaching the later success. -/
theorem recoverLoop_unavailable_retry_once :
    recoverLoop 12 0 [Outcome.unavailable, Outcome.success] = LoopResult.done 1 ∧
    recoverLoop 12 0 [Outcome.unavailable, Outcome.unavailable, Outcome.success] =
      LoopResult.done 0 := by
  decide

/-- C5: any outcome that is neither transport-unavailable nor the
load-balancer handshake pattern is fatal: the loop aborts immediately with the
error and the success count so far. The script [Fatal] yields zero successes
and an error, and [Fatal, Success] never reaches the later success. -/
theorem recoverLoop_fatal_aborts :
    recoverLoop 12 0 [Outcome.fatal] = LoopResult.failedWith 0 Outcome.fatal ∧
    recoverLoop 12 0 [Outcome.fatal, Outcome.success] =
      LoopResult.failedWith 0 Outcome.fatal := by
  decide

/-- C6: the load-balancer churn handshake pattern is retried on the same
endpoint without consuming the once-per-endpoint unavailable-retry budget: the
script [HandshakeFailure, HandshakeFailure, HandshakeFailure, Success] yields
one successful recovery and no error, and a handshake failure followed by an
unavailable outcome still leaves the single unavailable retry available, so
[HandshakeFailure, Unavailable, Success] also ends with one success. -/
theorem recoverLoop_lb_churn_retried :
    recoverLoop 12 0 [Outcome.handshakeFailure, Outcome.handshakeFailure,
      Outcome.handshakeFailure, Outcome.success] = LoopResult.done 1 ∧
    recoverLoop 12 0 [Outcome.handshakeFailure, Outcome.unavailable, Outcome.success] =
      LoopResult.done 1 := by
  decide

/-- C4: termination through the unavailable path with zero successes is an
overall success reported as no nodes needing recovery, while at least one
recovered node is reported with the pushed-key message together with the
count. The script [Unavailable] exercises the zero-success path concretely. -/
theorem recoverReport_outcomes :
    recoverLoop 12 0 [Outcome.unavailable] = LoopResult.done 0 ∧
    recoverReport (LoopResult.done 0) =
      "No control-plane nodes in need of recovery found." ∧
    ∀ n : Nat, 0 < n → recoverReport (LoopResult.done n) =
      "Pushed recovery key. Successfully recovered " ++ toString n ++ " node(s)." := by
  refine ⟨by decide, rfl, ?_⟩
  intro n hn
  match n, hn with
  | n + 1, _ => rfl

/-- Witness for C4: the report functions evaluated at one recovered node. -/
theorem recoverReport_outcomes_witness :
    recoverReport (LoopResult.done 1) =
      "Pushed recovery key. Successfully recovered " ++ toString 1 ++ " node(s)." :=
  recoverReport_outcomes.2.2 1 (by decide)

/- ## Join service data model (src/joinservice/internal/server/server.go and
src/joinservice/joinproto/join.proto) -/

/-- gRPC status codes relevant to the join service. The handler in
src/joinservice/internal/server/server.go wraps every failure in
codes.Internal; invalidArgument is the distinct client-error code the error
taxonomy of the spec names. -/
inductive StatusCode where
  | internal
  | invalidArgument
  deriving DecidableEq

/-- Error crossing the RPC boundary: a gRPC status code plus a message. -/
structure RPCError where
  code : StatusCode
  msg : String
  deriving DecidableEq

/-- Fields of the kubeadm BootstrapTokenDiscovery value returned by
joinTokenGetter.GetJoinToken that the handler reads. -/
structure BootstrapTokenDiscovery where
  apiServerEndpoint : String
  token : String
  caCertHashes : List String
  deriving DecidableEq

/-- Resolved Kubernetes component list (opaque to the handler). -/
abbrev Components := List String

/-- Request of IssueJoinTicket (src/joinservice/joinproto/join.proto). -/
structure IssueJoinTicketRequest where
  diskUuid : String
  certificateRequest : ByteSeq
  isControlPlane : Bool
  hostPublicKey : ByteSeq
  hostCertificatePrincipals : List String
  deriving DecidableEq

/-- One control-plane certificate or key file of the response. -/
structure ControlPlaneCertOrKey where
  name : String
  data : ByteSeq
  deriving DecidableEq

/-- Response of IssueJoinTicket (src/joinservice/joinproto/join.proto). -/
structure IssueJoinTicketResponse where
  stateDiskKey : ByteSeq
  measurementSalt : ByteSeq
  measurementSecret : ByteSeq
  apiServerEndpoint : String
  token : String
  discoveryTokenCaCertHash : String
  kubeletCert : ByteSeq
  controlPlaneFiles : List ControlPlaneCertOrKey
  kubernetesComponents : Components
  authorizedCaPublicKey : ByteSeq
  hostCertificate : ByteSeq
  deriving DecidableEq

/-- Request of IssueRejoinTicket (src/joinservice/joinproto/join.proto). -/
structure IssueRejoinTicketRequest where
  diskUuid : String
  deriving DecidableEq

/-- Response of IssueRejoinTicket (src/joinservice/joinproto/join.proto). -/
structure IssueRejoinTicketResponse where
  stateDiskKey : ByteSeq
  measurementSecret : ByteSeq
  deriving DecidableEq

/-- Modelled from the spec: fixed KMS context label for the measurement
secret (the internal/attestation package is not under src). -/
def MeasurementSecretContext : String := "measurementSecret"

/-- Modelled from the spec: default derived key length in bytes (the
internal/crypto package is not under src). -/
def DerivedKeyLengthDefault : Nat := 32

/-- Modelled from the spec: state disk key length in bytes (the
internal/crypto package is not under src). -/
def StateDiskKeyLength : Nat := 32

/-- Seed size of an ed25519 key in bytes. -/
def Ed25519SeedSize : Nat := 32

/-- Modelled from the spec: KMS context label for the emergency SSH CA key
seed (the internal/constants package is not under src). -/
def SSHCAKeySuffix : String := "ca_emergency_ssh"

/-- Modelled from the spec: path of the configured list of additional SSH
principals (the internal/constants package is not under src). -/
def SSHAdditionalPrincipalsPath : String := "/var/config/ssh_additional_principals"

/-- Modelled from the spec: name of the NodeVersion custom resource (the
internal/constants package is not under src). -/
def NodeVersionResourceName : String := "constellation-version"

/-- Modelled from the spec: context label added in front of the disk UUID
when a data encryption key is requested (crypto.DEKPrefix; the
internal/crypto package is not under src). -/
def DEKContextLabel : String := "key-"

/-- Capability record injected into the join service, mirroring the Go
interfaces joinTokenGetter, dataKeyGetter, certificateAuthority, kubeClient
and file.Handler of src/joinservice/internal/server/server.go together with
the ssh and crypto helpers the handler calls. Every fallible Go call is an
Except value; the error payload is the message of the underlying error. -/
structure ServerDeps where
  getDataKey : String → Nat → Except String ByteSeq
  readFile : String → Except String String
  generateEmergencySSHCAKey : ByteSeq → Except String ByteSeq
  parsePublicKey : ByteSeq → Except String ByteSeq
  generateSSHHostCertificate : List String → ByteSeq → ByteSeq → Except String ByteSeq
  marshalAuthorizedKey : ByteSeq → ByteSeq
  caPublicKey : ByteSeq → ByteSeq
  getJoinToken : Except String BootstrapTokenDiscovery
  getControlPlaneCertificatesAndKeys : Except String (List (String × ByteSeq))
  getK8sComponentsRefFromNodeVersionCRD : String → Except String String
  getComponents : String → Except String Components
  getCertificate : ByteSeq → Except String ByteSeq
  getNodeNameFromCSR : ByteSeq → Except String String
  addNodeToJoiningNodes : String → String → Bool → Except String Unit

/-- Embedding of Server.getK8sComponentsConfigMapName
(src/joinservice/internal/server/server.go lines 240 to 246). -/
def getK8sComponentsConfigMapName (s : ServerDeps) : Except String String :=
  match s.getK8sComponentsRefFromNodeVersionCRD NodeVersionResourceName with
  | .error e => .error ("could not get k8s components config map name: " ++ e)
  | .ok ref => .ok ref

/-- Steps of an IssueJoinTicket request, recorded in the order they complete
so that the processing order of the handler can be stated. -/
inductive Event where
  | measurementSecretDerived
  | stateDiskKeyDerived
  | sshCASeedDerived
  | caKeyGenerated
  | principalsRead
  | publicKeyParsed
  | hostCertificateIssued
  | joinTokenCreated
  | componentsRefResolved
  | componentsFetched
  | kubeletCertificateIssued
  | controlPlaneFilesLoaded
  | nodeNameExtracted
  | nodeRegistered
  | responded
  deriving DecidableEq

/-- Outcome of running a handler: a complete response, an error crossing the
RPC boundary, or a Go runtime panic (out-of-range slice index). -/
inductive RunResult (α : Type) where
  | ok (resp : α)
  | err (e : RPCError)
  | panicked
  deriving DecidableEq

/-- Trace of the steps of IssueJoinTicket that have completed once the
kubelet certificate is issued, in the order of the handler body. -/
def preRegisterTrace : List Event :=
  [.measurementSecretDerived, .stateDiskKeyDerived, .sshCASeedDerived,
   .caKeyGenerated, .principalsRead, .publicKeyParsed, .hostCertificateIssued,
   .joinTokenCreated, .componentsRefResolved, .componentsFetched,
   .kubeletCertificateIssued]

/-- Embedding of the control-plane branch of Server.IssueJoinTicket
(src/joinservice/internal/server/server.go lines 169 to 184): only a
control-plane request loads the certificate and key files, and the map
returned by the getter is turned into a list of name and data records. -/
def loadControlPlaneFiles (s : ServerDeps) (isControlPlane : Bool) :
    Except String (List ControlPlaneCertOrKey) :=
  if isControlPlane then
    match s.getControlPlaneCertificatesAndKeys with
    | .error e => .error e
    | .ok filesMap => .ok (filesMap.map fun kv => ControlPlaneCertOrKey.mk kv.1 kv.2)
  else .ok []

/-- Trace contribution of the control-plane branch: the loading step happens
only for a control-plane request. -/
def cpTrace (isControlPlane : Bool) : List Event :=
  if isControlPlane then [Event.controlPlaneFilesLoaded] else []

/-- Embedding of Server.IssueJoinTicket
(src/joinservice/internal/server/server.go lines 92 to 211), step by step in
the order of the handler body, returning the RPC outcome together with the
trace of completed steps. Every failure is wrapped in codes.Internal exactly
as in the Go code. Indexing CACertHashes at position 0 while the response is
built is unguarded in the Go code, so an empty list there is the runtime
panic outcome. -/
def issueJoinTicket (s : ServerDeps) (measurementSalt : ByteSeq)
    (req : IssueJoinTicketRequest) :
    RunResult IssueJoinTicketResponse × List Event :=
  match s.getDataKey MeasurementSecretContext DerivedKeyLengthDefault with
  | .error e => (.err ⟨.internal, "getting measurement secret: " ++ e⟩, [])
  | .ok measurementSecret =>
  match s.getDataKey req.diskUuid StateDiskKeyLength with
  | .error e => (.err ⟨.internal, "getting key for stateful disk: " ++ e⟩,
      [.measurementSecretDerived])
  | .ok stateDiskKey =>
  match s.getDataKey SSHCAKeySuffix Ed25519SeedSize with
  | .error e => (.err ⟨.internal, "getting emergency SSH CA seed material: " ++ e⟩,
      [.measurementSecretDerived, .stateDiskKeyDerived])
  | .ok sshCAKeySeed =>
  match s.generateEmergencySSHCAKey sshCAKeySeed with
  | .error e => (.err ⟨.internal, "generating ssh emergency CA key: " ++ e⟩,
      [.measurementSecretDerived, .stateDiskKeyDerived, .sshCASeedDerived])
  | .ok ca =>
  match s.readFile SSHAdditionalPrincipalsPath with
  | .error e => (.err ⟨.internal, "reading additional principals file: " ++ e⟩,
      [.measurementSecretDerived, .stateDiskKeyDerived, .sshCASeedDerived,
       .caKeyGenerated])
  | .ok additionalPrincipals =>
  match s.parsePublicKey req.hostPublicKey with
  | .error e => (.err ⟨.internal, "unmarshalling host public key: " ++ e⟩,
      [.measurementSecretDerived, .stateDiskKeyDerived, .sshCASeedDerived,
       .caKeyGenerated, .principalsRead])
  | .ok publicKey =>
  match s.generateSSHHostCertificate
      (req.hostCertificatePrincipals ++ additionalPrincipals.splitOn ",") publicKey ca with
  | .error e => (.err ⟨.internal, "generating and signing SSH host key: " ++ e⟩,
      [.measurementSecretDerived, .stateDiskKeyDerived, .sshCASeedDerived,
       .caKeyGenerated, .principalsRead, .publicKeyParsed])
  | .ok hostCertificate =>
  match s.getJoinToken with
  | .error e => (.err ⟨.internal, "generating Kubernetes join arguments: " ++ e⟩,
      [.measurementSecretDerived, .stateDiskKeyDerived, .sshCASeedDerived,
       .caKeyGenerated, .principalsRead, .publicKeyParsed, .hostCertificateIssued])
  | .ok kubeArgs =>
  match getK8sComponentsConfigMapName s with
  | .error e => (.err ⟨.internal, "getting components ConfigMap name: " ++ e⟩,
      [.measurementSecretDerived, .stateDiskKeyDerived, .sshCASeedDerived,
       .caKeyGenerated, .principalsRead, .publicKeyParsed, .hostCertificateIssued,
       .joinTokenCreated])
  | .ok componentsConfigMapName =>
  match s.getComponents componentsConfigMapName with
  | .error e => (.err ⟨.internal, "getting components: " ++ e⟩,
      [.measurementSecretDerived, .stateDiskKeyDerived, .sshCASeedDerived,
       .caKeyGenerated, .principalsRead, .publicKeyParsed, .hostCertificateIssued,
       .joinTokenCreated, .componentsRefResolved])
  | .ok comps =>
  match s.getCertificate req.certificateRequest with
  | .error e => (.err ⟨.internal, "Generating kubelet certificate: " ++ e⟩,
      [.measurementSecretDerived, .stateDiskKeyDerived, .sshCASeedDerived,
       .caKeyGenerated, .principalsRead, .publicKeyParsed, .hostCertificateIssued,
       .joinTokenCreated, .componentsRefResolved, .componentsFetched])
  | .ok kubeletCert =>
  match loadControlPlaneFiles s req.isControlPlane with
  | .error e => (.err ⟨.internal, "loading control-plane certificates and keys: " ++ e⟩,
      preRegisterTrace)
  | .ok controlPlaneFiles =>
  match s.getNodeNameFromCSR req.certificateRequest with
  | .error e => (.err ⟨.internal, "getting node name from CSR: " ++ e⟩,
      preRegisterTrace ++ cpTrace req.isControlPlane)
  | .ok nodeName =>
  match s.addNodeToJoiningNodes nodeName componentsConfigMapName req.isControlPlane with
  | .error e => (.err ⟨.internal, "adding node to joining nodes: " ++ e⟩,
      preRegisterTrace ++ cpTrace req.isControlPlane ++ [.nodeNameExtracted])
  | .ok _ =>
  match kubeArgs.caCertHashes with
  | [] => (.panicked,
      preRegisterTrace ++ cpTrace req.isControlPlane ++ [.nodeNameExtracted, .nodeRegistered])
  | hash :: _ =>
    (.ok { stateDiskKey := stateDiskKey
         , measurementSalt := measurementSalt
         , measurementSecret := measurementSecret
         , apiServerEndpoint := kubeArgs.apiServerEndpoint
         , token := kubeArgs.token
         , discoveryTokenCaCertHash := hash
         , kubeletCert := kubeletCert
         , controlPlaneFiles := controlPlaneFiles
         , kubernetesComponents := comps
         , authorizedCaPublicKey := s.marshalAuthorizedKey (s.caPublicKey ca)
         , hostCertificate := s.marshalAuthorizedKey hostCertificate },
     preRegisterTrace ++ cpTrace req.isControlPlane ++
       [.nodeNameExtracted, .nodeRegistered, .responded])

/-- Concrete join request used to evaluate the handler. -/
def reqEx : IssueJoinTicketRequest :=
  { diskUuid := "disk-uuid-1"
  , certificateRequest := [1, 2]
  , isControlPlane := false
  , hostPublicKey := [3, 4]
  , hostCertificatePrincipals := ["node-a"] }

/-- Concrete measurement salt used to evaluate the handler. -/
def saltEx : ByteSeq := [9, 9]

/-- Dependency record where every capability succeeds, used to evaluate the
handler on a complete run. -/
def sOK : ServerDeps :=
  { getDataKey := fun label len =>
      .ok (List.range len |>.map fun i => (label.length + i) % 256)
  , readFile := fun _ => .ok "admin"
  , generateEmergencySSHCAKey := fun seed => .ok (0 :: seed)
  , parsePublicKey := fun k => .ok k
  , generateSSHHostCertificate := fun _ k c => .ok (k ++ c)
  , marshalAuthorizedKey := fun k => 7 :: k
  , caPublicKey := fun c => 8 :: c
  , getJoinToken := .ok
      { apiServerEndpoint := "10.0.0.1:6443", token := "tok"
      , caCertHashes := ["sha256:abc"] }
  , getControlPlaneCertificatesAndKeys := .ok [("ca.crt", [5])]
  , getK8sComponentsRefFromNodeVersionCRD := fun _ => .ok "k8s-components-cm"
  , getComponents := fun _ => .ok ["kubelet-v1"]
  , getCertificate := fun csr => .ok (6 :: csr)
  , getNodeNameFromCSR := fun _ => .ok "node-a"
  , addNodeToJoiningNodes := fun _ _ _ => .ok () }

/-- Dependency record in which node registration always fails. -/
def sRegFail : ServerDeps :=
  { sOK with addNodeToJoiningNodes := fun _ _ _ => .error "registry write failed" }

/-- Dependency record in which no node name can be extracted from the CSR. -/
def sBadCSR : ServerDeps :=
  { sOK with getNodeNameFromCSR := fun _ => .error "cannot parse CSR" }

/-- Dependency record in which the join token carries no CA certificate
hash. -/
def sEmptyHashes : ServerDeps :=
  { sOK with
      getJoinToken := Except.ok (BootstrapTokenDiscovery.mk "10.0.0.1:6443" "tok" []) }

/-- Embedding of Server.IssueRejoinTicket
(src/joinservice/internal/server/server.go lines 214 to 237). -/
def issueRejoinTicket (s : ServerDeps) (req : IssueRejoinTicketRequest) :
    RunResult IssueRejoinTicketResponse :=
  match s.getDataKey MeasurementSecretContext DerivedKeyLengthDefault with
  | .error e => .err ⟨.internal, "unable to get measurement secret: " ++ e⟩
  | .ok measurementSecret =>
  match s.getDataKey req.diskUuid StateDiskKeyLength with
  | .error e => .err ⟨.internal, "unable to get key for stateful disk: " ++ e⟩
  | .ok stateDiskKey =>
    .ok { stateDiskKey := stateDiskKey, measurementSecret := measurementSecret }

/- ## Join service claims -/

/-- Lemma: a complete response can only be produced after the registry write
succeeded for some node name and components reference. -/
theorem issueJoinTicket_ok_implies_registered (s : ServerDeps) (salt : ByteSeq)
    (req : IssueJoinTicketRequest) (resp : IssueJoinTicketResponse)
    (tr : List Event)
    (h : issueJoinTicket s salt req = (RunResult.ok resp, tr)) :
    ∃ n cm, s.addNodeToJoiningNodes n cm req.isControlPlane = Except.ok () := by
  unfold issueJoinTicket at h
  repeat' split at h
  all_goals simp_all
  exact ⟨_, _, by assumption⟩

/-- Arbitrary response value used to state closed witness facts. -/
def respPlaceholder : IssueJoinTicketResponse :=
  { stateDiskKey := [], measurementSalt := [], measurementSecret := []
  , apiServerEndpoint := "", token := "", discoveryTokenCaCertHash := ""
  , kubeletCert := [], controlPlaneFiles := [], kubernetesComponents := []
  , authorizedCaPublicKey := [], hostCertificate := [] }

/-- C3: IssueJoinTicket is atomic at the RPC boundary. An error outcome
carries no response and its trace never reaches the responded step; a
complete response implies the node was registered and that the response was
the final step; and a failure of the last mutating step, registration in the
joining-nodes registry, fails the whole operation, so no ticket is handed
out. -/
theorem issueJoinTicket_atomic (s : ServerDeps) (salt : ByteSeq)
    (req : IssueJoinTicketRequest) :
    (∀ e tr, issueJoinTicket s salt req = (RunResult.err e, tr) →
      Event.responded ∉ tr) ∧
    (∀ resp tr, issueJoinTicket s salt req = (RunResult.ok resp, tr) →
      Event.nodeRegistered ∈ tr ∧ tr.getLast? = some Event.responded) ∧
    ((∀ n ref cp, ∃ msg, s.addNodeToJoiningNodes n ref cp = Except.error msg) →
      ∀ resp tr, issueJoinTicket s salt req ≠ (RunResult.ok resp, tr)) := by
  refine ⟨?_, ?_, ?_⟩
  · intro e tr h
    unfold issueJoinTicket at h
    repeat' split at h
    all_goals injection h with h1 h2
    all_goals (try (injection h1))
    all_goals subst h2
    all_goals
      first
      | decide
      | (cases hcp : req.isControlPlane <;>
          simp [hcp, cpTrace, preRegisterTrace])
  · intro resp tr h
    unfold issueJoinTicket at h
    repeat' split at h
    all_goals injection h with h1 h2
    all_goals (try (injection h1))
    all_goals subst h2
    all_goals
      first
      | decide
      | (cases hcp : req.isControlPlane <;>
          simp [hcp, cpTrace, preRegisterTrace])
  · intro hreg resp tr h
    obtain ⟨n, cm, hok⟩ := issueJoinTicket_ok_implies_registered s salt req resp tr h
    obtain ⟨msg, hmsg⟩ := hreg n cm req.isControlPlane
    simp [hmsg] at hok

/-- Witness for C3: with a dependency record whose registry write always
fails, the handler at a concrete request never returns a complete response. -/
theorem issueJoinTicket_atomic_witness :
    issueJoinTicket sRegFail saltEx reqEx ≠ (RunResult.ok respPlaceholder, []) :=
  (issueJoinTicket_atomic sRegFail saltEx reqEx).2.2
    (fun _ _ _ => ⟨"registry write failed", rfl⟩) respPlaceholder []

/-- Lemma: a successful join run carries the measurement secret returned by
the key-derivation capability for the fixed measurement-secret context and
default length. -/
theorem issueJoinTicket_measurementSecret_value (s : ServerDeps) (salt : ByteSeq)
    (req : IssueJoinTicketRequest) (resp : IssueJoinTicketResponse)
    (tr : List Event)
    (h : issueJoinTicket s salt req = (RunResult.ok resp, tr)) :
    ∃ v, s.getDataKey MeasurementSecretContext DerivedKeyLengthDefault = Except.ok v ∧
      resp.measurementSecret = v := by
  unfold issueJoinTicket at h
  repeat' split at h
  all_goals injection h with h1 h2
  all_goals (try (injection h1))
  all_goals (rename_i h3; cases h3; exact ⟨_, by assumption, rfl⟩)

/-- Lemma: a successful rejoin run carries the measurement secret returned by
the key-derivation capability for the fixed measurement-secret context and
default length. -/
theorem issueRejoinTicket_measurementSecret_value (s : ServerDeps)
    (req : IssueRejoinTicketRequest) (resp : IssueRejoinTicketResponse)
    (h : issueRejoinTicket s req = RunResult.ok resp) :
    ∃ v, s.getDataKey MeasurementSecretContext DerivedKeyLengthDefault = Except.ok v ∧
      resp.measurementSecret = v := by
  unfold issueRejoinTicket at h
  repeat' split at h
  all_goals (try (injection h))
  all_goals (rename_i h3; cases h3; exact ⟨_, by assumption, rfl⟩)

/-- C10: IssueJoinTicket and IssueRejoinTicket request the measurement secret
with the same fixed context label and the same length from the same
deterministic key-derivation capability, so under one dependency record (one
master secret and salt) every successful join response and every successful
rejoin response carry bit-identical measurement secret bytes: the secret is
per cluster epoch, not unique per request. -/
theorem measurementSecret_join_rejoin_shared (s : ServerDeps) (salt : ByteSeq)
    (reqJ : IssueJoinTicketRequest) (reqR : IssueRejoinTicketRequest)
    (respJ : IssueJoinTicketResponse) (trJ : List Event)
    (respR : IssueRejoinTicketResponse)
    (hJ : issueJoinTicket s salt reqJ = (RunResult.ok respJ, trJ))
    (hR : issueRejoinTicket s reqR = RunResult.ok respR) :
    respJ.measurementSecret = respR.measurementSecret := by
  obtain ⟨v1, hv1, e1⟩ := issueJoinTicket_measurementSecret_value s salt reqJ respJ trJ hJ
  obtain ⟨v2, hv2, e2⟩ := issueRejoinTicket_measurementSecret_value s reqR respR hR
  rw [hv1] at hv2
  injection hv2 with hv
  rw [e1, e2, hv]

/-- Concrete successful join run used by witnesses. -/
def joinRunEx : RunResult IssueJoinTicketResponse × List Event :=
  issueJoinTicket sOK saltEx reqEx

/-- Response of the concrete successful join run. -/
def respJoinEx : IssueJoinTicketResponse :=
  match joinRunEx.1 with
  | .ok r => r
  | _ => respPlaceholder

/-- Concrete rejoin request used by witnesses. -/
def reqRejoinEx : IssueRejoinTicketRequest := IssueRejoinTicketRequest.mk "disk-uuid-1"

/-- Response of the concrete successful rejoin run. -/
def respRejoinEx : IssueRejoinTicketResponse :=
  match issueRejoinTicket sOK reqRejoinEx with
  | .ok r => r
  | _ => IssueRejoinTicketResponse.mk [] []

/-- Witness for C10: the concrete join and rejoin runs agree on the
measurement secret bytes. -/
theorem measurementSecret_join_rejoin_shared_witness :
    respJoinEx.measurementSecret = respRejoinEx.measurementSecret :=
  measurementSecret_join_rejoin_shared sOK saltEx reqEx reqRejoinEx
    respJoinEx joinRunEx.2 respRejoinEx (by decide) (by decide)

/-- Counterexample to C7 as stated: in a fully successful concrete run the
trace ends with the response, yet the components reference is resolved and
the components are fetched before the kubelet certificate is issued, so the
certificates are not all issued before components resolution. -/
theorem issueJoinTicket_order_counterexample :
    (issueJoinTicket sOK saltEx reqEx).2 =
      [Event.measurementSecretDerived, Event.stateDiskKeyDerived,
       Event.sshCASeedDerived, Event.caKeyGenerated, Event.principalsRead,
       Event.publicKeyParsed, Event.hostCertificateIssued,
       Event.joinTokenCreated, Event.componentsRefResolved,
       Event.componentsFetched, Event.kubeletCertificateIssued,
       Event.nodeNameExtracted, Event.nodeRegistered, Event.responded] ∧
    ¬ List.indexOf Event.kubeletCertificateIssued (issueJoinTicket sOK saltEx reqEx).2 <
      List.indexOf Event.componentsRefResolved (issueJoinTicket sOK saltEx reqEx).2 := by
  decide

/-- C7 (amended): every successful IssueJoinTicket run processes the request
in exactly this order: the three secrets are derived, the emergency CA key is
generated, the additional principals are read, the host public key is parsed
and the host certificate issued, the join token is created, the Kubernetes
components reference is resolved and the components fetched, then the kubelet
certificate is issued; for a control-plane request the control-plane files
are loaded next; finally the node name is extracted, the node is registered,
and the response is returned as the last step. -/
theorem issueJoinTicket_success_trace (s : ServerDeps) (salt : ByteSeq)
    (req : IssueJoinTicketRequest) (resp : IssueJoinTicketResponse)
    (tr : List Event)
    (h : issueJoinTicket s salt req = (RunResult.ok resp, tr)) :
    tr = preRegisterTrace ++ cpTrace req.isControlPlane ++
      [Event.nodeNameExtracted, Event.nodeRegistered, Event.responded] := by
  unfold issueJoinTicket at h
  repeat' split at h
  all_goals injection h with h1 h2
  all_goals (try (injection h1))
  all_goals (subst h2; rfl)

/-- Witness for C7 (amended): the trace of the concrete successful run. -/
theorem issueJoinTicket_success_trace_witness :
    joinRunEx.2 = preRegisterTrace ++ cpTrace reqEx.isControlPlane ++
      [Event.nodeNameExtracted, Event.nodeRegistered, Event.responded] :=
  issueJoinTicket_success_trace sOK saltEx reqEx respJoinEx joinRunEx.2 (by decide)

/-- Counterexample to C8 as stated: with a dependency record whose CSR node
name extraction fails, the handler aborts with an error carrying the Internal
status code, which is not the distinct client-caused invalid-request code the
claim names. -/
theorem issueJoinTicket_badCSR_counterexample :
    (issueJoinTicket sBadCSR saltEx reqEx).1 =
      RunResult.err (RPCError.mk StatusCode.internal
        "getting node name from CSR: cannot parse CSR") ∧
    StatusCode.internal ≠ StatusCode.invalidArgument := by
  decide

/-- Status code carried by an error outcome, if any. -/
def RunResult.errCode {α : Type} : RunResult α → Option StatusCode
  | .err e => some e.code
  | _ => none

/-- C8 (amended): when no node name can be extracted from the certificate
signing request, IssueJoinTicket aborts with an error whose status code is
Internal (the handler maps this failure, like every other one, to
codes.Internal rather than to a distinct client-error code) and no node is
registered. -/
theorem issueJoinTicket_badCSR_aborts (s : ServerDeps) (salt : ByteSeq)
    (req : IssueJoinTicketRequest)
    (h : ∀ csr, ∃ msg, s.getNodeNameFromCSR csr = Except.error msg) :
    RunResult.errCode (issueJoinTicket s salt req).1 = some StatusCode.internal ∧
    Event.nodeRegistered ∉ (issueJoinTicket s salt req).2 := by
  obtain ⟨msg, hmsg⟩ := h req.certificateRequest
  unfold issueJoinTicket
  cases hcp : req.isControlPlane <;>
    (repeat' split) <;>
    simp_all [RunResult.errCode, preRegisterTrace, cpTrace]

/-- Witness for C8 (amended): the amended statement at the concrete
dependency record whose CSR extraction always fails. -/
theorem issueJoinTicket_badCSR_aborts_witness :
    RunResult.errCode (issueJoinTicket sBadCSR saltEx reqEx).1 =
      some StatusCode.internal ∧
    Event.nodeRegistered ∉ (issueJoinTicket sBadCSR saltEx reqEx).2 :=
  issueJoinTicket_badCSR_aborts sBadCSR saltEx reqEx
    (fun _ => ⟨"cannot parse CSR", rfl⟩)

/-- C9: the handler indexes the CA certificate hash list at position 0
without a length guard while building the response, so totality holds exactly
under the precondition that GetJoinToken yields a non-empty hash list: under
that precondition the run never panics, and with a dependency record whose
join token carries no hash while every step succeeds, the run reaches the
response-building step and panics. -/
theorem issueJoinTicket_caCertHashes_guard (s : ServerDeps) (salt : ByteSeq)
    (req : IssueJoinTicketRequest)
    (h : ∀ args, s.getJoinToken = Except.ok args → args.caCertHashes ≠ []) :
    (issueJoinTicket s salt req).1 ≠ RunResult.panicked ∧
    (issueJoinTicket sEmptyHashes saltEx reqEx).1 = RunResult.panicked := by
  constructor
  · unfold issueJoinTicket
    repeat' split
    all_goals simp_all
  · decide

/-- Witness for C9: the concrete fully successful dependency record carries
one hash and its run does not panic. -/
theorem issueJoinTicket_caCertHashes_guard_witness :
    (issueJoinTicket sOK saltEx reqEx).1 ≠ RunResult.panicked ∧
    (issueJoinTicket sEmptyHashes saltEx reqEx).1 = RunResult.panicked :=
  issueJoinTicket_caCertHashes_guard sOK saltEx reqEx
    (fun args hargs => by
      injection hargs with hh
      rw [← hh]
      decide)

/-- Embedding of getStateDiskKeyFunc (src/cli/internal/cmd/recover_test.go
lines 263 to 267): the per-disk derivation function over the injected
key-derivation primitive crypto.DeriveKey (the internal/crypto package is not
under src, so the primitive is a parameter). The context label is the DEK
label followed by the disk UUID and the requested length is the state disk
key length. -/
def getStateDiskKeyFunc
    (deriveKey : ByteSeq → ByteSeq → String → Nat → Except String ByteSeq)
    (masterKey salt : ByteSeq) : String → Except String ByteSeq :=
  fun uuid => deriveKey masterKey salt (DEKContextLabel ++ uuid) StateDiskKeyLength

/-- Modelled from the spec: concrete stand-in for the HKDF-based
KeyDerivationOracle, a deterministic function of master secret, salt, label
and length, used to evaluate the derivation function on concrete inputs. -/
def deriveKeyModel (masterKey salt : ByteSeq) (label : String) (length : Nat) :
    Except String ByteSeq :=
  Except.ok (List.range length |>.map fun i =>
    (masterKey.sum + salt.sum + (label.toList.map Char.toNat).sum + i) % 256)

/-- C2: state-disk-key derivation is deterministic: for any key-derivation
primitive and any master secret, salt and disk UUID, two derivations with
identical inputs produce identical output bytes, so any two nodes holding the
same master secret and salt derive the same key for the same disk UUID. -/
theorem deriveStateDiskKey_deterministic
    (deriveKey : ByteSeq → ByteSeq → String → Nat → Except String ByteSeq)
    (masterKey salt : ByteSeq) (uuid : String) (k1 k2 : Except String ByteSeq)
    (h1 : getStateDiskKeyFunc deriveKey masterKey salt uuid = k1)
    (h2 : getStateDiskKeyFunc deriveKey masterKey salt uuid = k2) :
    k1 = k2 :=
  h1.symm.trans h2

/-- Witness for C2: two concrete derivations with identical inputs agree. -/
theorem deriveStateDiskKey_deterministic_witness :
    getStateDiskKeyFunc deriveKeyModel [1, 2] [3] "disk-uuid-1" =
      getStateDiskKeyFunc deriveKeyModel [1, 2] [3] "disk-uuid-1" :=
  deriveStateDiskKey_deterministic deriveKeyModel [1, 2] [3] "disk-uuid-1"
    (getStateDiskKeyFunc deriveKeyModel [1, 2] [3] "disk-uuid-1")
    (getStateDiskKeyFunc deriveKeyModel [1, 2] [3] "disk-uuid-1") rfl rfl
